import Mathlib

/-!
Shallow embedding of the job/pipeline orchestration core of the
Katube YouTube downloader (files src/src/simple_pipeline.py and src/app.py).

External collaborators (the video source, the channel enumerator, the object
store client and the file system) are modelled as oracle values carried in an
environment record: each oracle holds the outcome the collaborator would
produce (a returned value, a reported failure, or a raised exception), and the
embedded functions consume those outcomes exactly where the Python code calls
the collaborator.  Dynamic parts of human-readable message strings (video ids,
counters, emoji) are abbreviated; everything that the claims quantify over
(states, progress numbers, flags, counts, orderings, deletions) follows the
source line by line.
-/

namespace Katube

/-! ### Per-video processor: SimpleDownloadPipeline.download_single_video
    (src/src/simple_pipeline.py lines 76-197) -/

/-- Result of get_video_info (the video source collaborator). -/
structure VideoInfo where
  id : String
  title : String
  duration : Nat
deriving Repr, DecidableEq

/-- Dictionary returned by GCPUploader.upload_file (src/src/gcp_uploader.py
lines 94-150): it never raises, it reports success or failure in a field. -/
structure UploadResult where
  success : Bool
  publicUrl : String
  errMsg : String
deriving Repr, DecidableEq

/-- Oracle environment for one download_single_video call: the outcome each
external collaborator produces at the point the Python code consults it.
Except values model calls that may raise; Bool fields model boolean replies
or whether a file-system call raises. -/
structure VideoEnv where
  /-- get_video_info: metadata, or the raised exception message. -/
  info : Except String VideoInfo
  /-- downloader.download: the local audio path, or the raised exception. -/
  downloadPath : Except String String
  /-- whether writing the metadata sidecar (json.dump) completes without raising. -/
  metadataWriteOk : Bool
  /-- gcp_uploader.is_available(). -/
  gcpAvailable : Bool
  /-- upload_file outcome for the audio file. -/
  audioUpload : UploadResult
  /-- upload_file outcome for the metadata sidecar. -/
  metaUpload : UploadResult
  /-- audio_path.exists() at cleanup time. -/
  audioExists : Bool
  /-- metadata_file.exists() at cleanup time. -/
  metaExists : Bool
  /-- whether audio_path.unlink() completes without raising. -/
  audioUnlinkOk : Bool
  /-- whether metadata_file.unlink() completes without raising. -/
  metaUnlinkOk : Bool
  /-- audio_path.stat().st_size. -/
  fileSize : Nat
deriving Repr

/-- The result dictionary built by download_single_video.  Field names follow
the dictionary keys of the source (audio_path, metadata_path, uploaded_to_gcp,
local_files_cleaned). -/
structure VideoResult where
  success : Bool
  videoId : String
  title : String
  url : String
  audioPath : String
  metadataPath : String
  fileSize : Nat
  duration : Nat
  uploadedToGcp : Bool
  localFilesCleaned : Bool
  gcpAudioUrl : Option String
  gcpMetadataUrl : Option String
  errMsg : Option String
deriving Repr, DecidableEq

/-- The failure dictionary of download_single_video (lines 193-197):
only success=False, url and error are set. -/
def failVideoResult (url e : String) : VideoResult :=
  { success := false, videoId := "", title := "", url := url, audioPath := ""
    metadataPath := "", fileSize := 0, duration := 0, uploadedToGcp := false
    localFilesCleaned := false, gcpAudioUrl := none, gcpMetadataUrl := none
    errMsg := some e }

/-- Sidecar path, lines 119: session metadata subdirectory, name derived
from the video id. -/
def metadataFilePath (videoId : String) : String :=
  "metadata/" ++ videoId ++ "_metadata.json"

/-- download_single_video (lines 76-197).  Returns the result dictionary and
the list of local files actually deleted, in deletion order.  The cleanup
block (lines 171-183) is a single try: if the audio unlink raises, the
metadata unlink is never attempted and local_files_cleaned stays False. -/
def downloadSingleVideo (env : VideoEnv) (url _sessionName : String)
    (immediateUpload : Bool) : VideoResult × List String :=
  match env.info with
  | Except.error e => (failVideoResult url e, [])
  | Except.ok info =>
    match env.downloadPath with
    | Except.error e => (failVideoResult url e, [])
    | Except.ok audioPath =>
      if env.metadataWriteOk = false then
        (failVideoResult url "metadata write failed", [])
      else
        -- base result dictionary, lines 123-134
        let r0 : VideoResult :=
          { success := true, videoId := info.id, title := info.title
            url := url, audioPath := audioPath
            metadataPath := metadataFilePath info.id
            fileSize := env.fileSize, duration := info.duration
            uploadedToGcp := false, localFilesCleaned := false
            gcpAudioUrl := none, gcpMetadataUrl := none, errMsg := none }
        -- lines 137-187: immediate upload branch
        if immediateUpload && env.gcpAvailable then
          if env.audioUpload.success then
            if env.metaUpload.success then
              let r1 : VideoResult :=
                { r0 with uploadedToGcp := true
                          gcpAudioUrl := some env.audioUpload.publicUrl
                          gcpMetadataUrl := some env.metaUpload.publicUrl }
              -- cleanup try-block, lines 171-183
              if env.audioExists then
                if env.audioUnlinkOk then
                  if env.metaExists then
                    if env.metaUnlinkOk then
                      ({ r1 with localFilesCleaned := true },
                       [audioPath, metadataFilePath info.id])
                    else (r1, [audioPath])
                  else ({ r1 with localFilesCleaned := true }, [audioPath])
                else (r1, [])
              else
                if env.metaExists then
                  if env.metaUnlinkOk then
                    ({ r1 with localFilesCleaned := true },
                     [metadataFilePath info.id])
                  else (r1, [])
                else ({ r1 with localFilesCleaned := true }, [])
            else (r0, [])
          else (r0, [])
        else (r0, [])

/-- True when the cleanup try-block of download_single_video raises, i.e.
when the first unlink actually attempted raises. -/
def cleanupRaises (env : VideoEnv) : Bool :=
  (env.audioExists && !env.audioUnlinkOk) ||
  ((!env.audioExists || env.audioUnlinkOk) && env.metaExists && !env.metaUnlinkOk)

/-- C1: for a single-video run with immediate upload requested and the object
store available, local files are deleted only when both uploads succeeded;
the uploaded flag is true only when both uploads succeed; and a failed
deletion leaves success=true and uploaded=true with local_files_cleaned=false. -/
theorem single_video_upload_before_delete (env : VideoEnv)
    (url sess : String) (i : VideoInfo) (p : String)
    (hi : env.info = Except.ok i) (hd : env.downloadPath = Except.ok p)
    (hm : env.metadataWriteOk = true) (hg : env.gcpAvailable = true) :
    ((downloadSingleVideo env url sess true).2 ≠ [] →
      env.audioUpload.success = true ∧ env.metaUpload.success = true) ∧
    ((downloadSingleVideo env url sess true).1.uploadedToGcp = true →
      env.audioUpload.success = true ∧ env.metaUpload.success = true) ∧
    (env.audioUpload.success = true → env.metaUpload.success = true →
      cleanupRaises env = true →
      (downloadSingleVideo env url sess true).1.success = true ∧
      (downloadSingleVideo env url sess true).1.uploadedToGcp = true ∧
      (downloadSingleVideo env url sess true).1.localFilesCleaned = false) := by
  obtain ⟨info, dl, mw, gcp, au, mu, ae, me_, auk, muk, fs⟩ := env
  simp only at hi hd hm hg
  subst hi hd hm hg
  obtain ⟨aus, aup, aue⟩ := au
  obtain ⟨mus, mup, mue⟩ := mu
  cases aus <;> cases mus <;> cases ae <;> cases me_ <;> cases auk <;> cases muk <;>
    simp [downloadSingleVideo, cleanupRaises]

/-- Witness for C1 at a concrete environment in which both uploads succeed
and the audio unlink raises. -/
def c1WitnessEnv : VideoEnv :=
  { info := Except.ok { id := "vid1", title := "T", duration := 5 }
    downloadPath := Except.ok "downloads/a.flac"
    metadataWriteOk := true, gcpAvailable := true
    audioUpload := { success := true, publicUrl := "gs://b/a", errMsg := "" }
    metaUpload := { success := true, publicUrl := "gs://b/m", errMsg := "" }
    audioExists := true, metaExists := true
    audioUnlinkOk := false, metaUnlinkOk := true, fileSize := 3 }

theorem single_video_upload_before_delete_witness :
    ((downloadSingleVideo c1WitnessEnv "u" "s" true).2 ≠ [] →
      c1WitnessEnv.audioUpload.success = true ∧
      c1WitnessEnv.metaUpload.success = true) ∧
    ((downloadSingleVideo c1WitnessEnv "u" "s" true).1.uploadedToGcp = true →
      c1WitnessEnv.audioUpload.success = true ∧
      c1WitnessEnv.metaUpload.success = true) ∧
    (c1WitnessEnv.audioUpload.success = true →
      c1WitnessEnv.metaUpload.success = true →
      cleanupRaises c1WitnessEnv = true →
      (downloadSingleVideo c1WitnessEnv "u" "s" true).1.success = true ∧
      (downloadSingleVideo c1WitnessEnv "u" "s" true).1.uploadedToGcp = true ∧
      (downloadSingleVideo c1WitnessEnv "u" "s" true).1.localFilesCleaned = false) :=
  single_video_upload_before_delete c1WitnessEnv "u" "s"
    { id := "vid1", title := "T", duration := 5 } "downloads/a.flac"
    rfl rfl rfl rfl

/-! ### Channel processor: SimpleDownloadPipeline.download_channel_videos
    (src/src/simple_pipeline.py lines 199-324) -/

/-- Outcome of one iteration body of the per-video loop: the inner call to
download_single_video either returns a result dictionary or the body raises
an unexpected exception (caught at lines 264-270). -/
inductive StepOutcome where
  | ok (r : VideoResult)
  | raised (e : String)
deriving Repr

/-- Oracle environment for one download_channel_videos call. -/
structure ChannelEnv where
  /-- youtube_scanner.scan_channel: the video list path, or None. -/
  scanResult : Option String
  /-- youtube_scanner.get_video_urls on that path. -/
  videoUrls : List String
  /-- outcome of the loop body for the video at (zero-based) index i. -/
  outcome : Nat → StepOutcome

/-- One invocation of the progress callback:
(video url, success flag, total count, one-based index of completed video). -/
def CbCall : Type := String × Bool × Nat × Nat
deriving instance Repr, DecidableEq for CbCall

/-- The success flag the loop passes to the callback for a step outcome. -/
def stepSuccess : StepOutcome → Bool
  | StepOutcome.ok r => r.success
  | StepOutcome.raised _ => false

/-- The per-video loop (lines 246-273): walks the capped url list with
zero-based index i, partitions results into downloaded and failed preserving
order, and records every progress-callback invocation in order.  On a raised
exception the failure dictionary of lines 266-270 is appended and the
callback is still invoked with success=False. -/
def channelLoop (outcome : Nat → StepOutcome) (total : Nat) :
    List String → Nat → List VideoResult × List VideoResult × List CbCall
  | [], _ => ([], [], [])
  | url :: rest, i =>
    let tail := channelLoop outcome total rest (i + 1)
    match outcome i with
    | StepOutcome.ok r =>
      if r.success then
        (r :: tail.1, tail.2.1, (url, r.success, total, i + 1) :: tail.2.2)
      else
        (tail.1, r :: tail.2.1, (url, r.success, total, i + 1) :: tail.2.2)
    | StepOutcome.raised e =>
      (tail.1, failVideoResult url e :: tail.2.1,
       (url, false, total, i + 1) :: tail.2.2)

/-- The channel result dictionary (lines 305-315 on success,
lines 220-225 and 230-235 on enumeration failure). -/
structure ChannelResult where
  success : Bool
  errMsg : Option String
  channelUrl : String
  totalVideos : Nat
  downloadedCount : Nat
  failedCount : Nat
  downloadedVideos : List VideoResult
  failedVideos : List VideoResult
deriving Repr, DecidableEq

/-- The enumeration list after the video-count cap of lines 238-240 is
applied; empty when the scan fails or yields no urls (the loop never runs
in those cases). -/
def cappedUrls (env : ChannelEnv) (maxVideos : Nat) : List String :=
  match env.scanResult with
  | none => []
  | some _ =>
    if env.videoUrls = [] then []
    else if env.videoUrls.length > maxVideos then env.videoUrls.take maxVideos
    else env.videoUrls

/-- download_channel_videos (lines 199-324).  Returns the result dictionary
and the ordered list of progress-callback invocations. -/
def downloadChannelVideos (env : ChannelEnv) (channelUrl : String)
    (maxVideos : Nat) : ChannelResult × List CbCall :=
  match env.scanResult with
  | none =>
    ({ success := false, errMsg := some "Channel scan failed"
       channelUrl := channelUrl, totalVideos := 0, downloadedCount := 0
       failedCount := 0, downloadedVideos := [], failedVideos := [] }, [])
  | some _ =>
    if env.videoUrls = [] then
      ({ success := false, errMsg := some "No videos found in channel"
         channelUrl := channelUrl, totalVideos := 0, downloadedCount := 0
         failedCount := 0, downloadedVideos := [], failedVideos := [] }, [])
    else
      let urls := if env.videoUrls.length > maxVideos
                  then env.videoUrls.take maxVideos else env.videoUrls
      let res := channelLoop env.outcome urls.length urls 0
      ({ success := true, errMsg := none, channelUrl := channelUrl
         totalVideos := urls.length
         downloadedCount := res.1.length, failedCount := res.2.1.length
         downloadedVideos := res.1, failedVideos := res.2.1 }, res.2.2)

/-- Each loop iteration adds exactly one entry to exactly one partition. -/
theorem channelLoop_length (outcome : Nat → StepOutcome) (total : Nat) :
    ∀ (urls : List String) (i : Nat),
      (channelLoop outcome total urls i).1.length +
        (channelLoop outcome total urls i).2.1.length = urls.length := by
  intro urls
  induction urls with
  | nil => intro i; simp [channelLoop]
  | cons url rest ih =>
    intro i
    simp only [channelLoop]
    cases outcome i with
    | ok r =>
      cases hr : r.success <;> simp [hr, List.length_cons] <;> rw [← ih (i + 1)] <;> omega
    | raised e =>
      simp [List.length_cons]
      rw [← ih (i + 1)]
      omega

/-- C3: every Channel Result of a completed channel run satisfies
downloaded_count + failed_count = total_videos_found (computed after the
cap), downloaded_count = len(downloaded_videos), and
failed_count = len(failed_videos). -/
theorem channel_result_counts (env : ChannelEnv) (channelUrl : String)
    (maxVideos : Nat)
    (h : (downloadChannelVideos env channelUrl maxVideos).1.success = true) :
    (downloadChannelVideos env channelUrl maxVideos).1.downloadedCount +
      (downloadChannelVideos env channelUrl maxVideos).1.failedCount =
      (downloadChannelVideos env channelUrl maxVideos).1.totalVideos ∧
    (downloadChannelVideos env channelUrl maxVideos).1.downloadedCount =
      (downloadChannelVideos env channelUrl maxVideos).1.downloadedVideos.length ∧
    (downloadChannelVideos env channelUrl maxVideos).1.failedCount =
      (downloadChannelVideos env channelUrl maxVideos).1.failedVideos.length := by
  obtain ⟨scan, urls, outcome⟩ := env
  cases scan with
  | none => simp [downloadChannelVideos] at h
  | some p =>
    by_cases hu : urls = []
    · simp [downloadChannelVideos, hu] at h
    · by_cases hlen : urls.length > maxVideos <;>
        simp [downloadChannelVideos, hu, hlen, channelLoop_length]

/-- Witness environment for C3 and the C8 example: three videos, the second
fails, the third raises. -/
def c3WitnessEnv : ChannelEnv :=
  { scanResult := some "scans/list.csv"
    videoUrls := ["u1", "u2", "u3"]
    outcome := fun i =>
      if i = 0 then
        StepOutcome.ok { failVideoResult "u1" "" with
                          success := true, errMsg := none }
      else if i = 1 then StepOutcome.ok (failVideoResult "u2" "boom")
      else StepOutcome.raised "crash" }

theorem channel_result_counts_witness :
    (downloadChannelVideos c3WitnessEnv "cu" 2500).1.success = true ∧
    ((downloadChannelVideos c3WitnessEnv "cu" 2500).1.downloadedCount +
      (downloadChannelVideos c3WitnessEnv "cu" 2500).1.failedCount =
      (downloadChannelVideos c3WitnessEnv "cu" 2500).1.totalVideos ∧
    (downloadChannelVideos c3WitnessEnv "cu" 2500).1.downloadedCount =
      (downloadChannelVideos c3WitnessEnv "cu" 2500).1.downloadedVideos.length ∧
    (downloadChannelVideos c3WitnessEnv "cu" 2500).1.failedCount =
      (downloadChannelVideos c3WitnessEnv "cu" 2500).1.failedVideos.length) :=
  ⟨by decide, channel_result_counts c3WitnessEnv "cu" 2500 (by decide)⟩

/-- The callback invocations of the loop, described positionally: walking
urls with starting index i produces, for the entry of enumFrom i at absolute
position k, the call (url at k, success flag of outcome k, total, k + 1). -/
theorem channelLoop_calls (outcome : Nat → StepOutcome) (total : Nat) :
    ∀ (urls : List String) (i : Nat),
      (channelLoop outcome total urls i).2.2 =
        (List.enumFrom i urls).map
          (fun e => (e.2, stepSuccess (outcome e.1), total, e.1 + 1)) := by
  intro urls
  induction urls with
  | nil => intro i; simp [channelLoop]
  | cons url rest ih =>
    intro i
    simp only [channelLoop, List.enumFrom, List.map_cons]
    cases ho : outcome i with
    | ok r =>
      cases hr : r.success <;>
        simp [hr, ih (i + 1), stepSuccess, ho]
    | raised e =>
      simp [ih (i + 1), stepSuccess, ho]

/-- Indices of enumFrom start at the given base. -/
theorem enumFrom_fst_le (l : List String) :
    ∀ (n : Nat) (p : Nat × String), p ∈ List.enumFrom n l → n ≤ p.1 := by
  induction l with
  | nil => intro n p hp; simp [List.enumFrom] at hp
  | cons x xs ih =>
    intro n p hp
    simp only [List.enumFrom, List.mem_cons] at hp
    cases hp with
    | inl h => subst h; exact Nat.le_refl n
    | inr h => exact Nat.le_trans (Nat.le_succ n) (ih (n + 1) p h)

/-- The first components of enumFrom are strictly increasing. -/
theorem enumFrom_pairwise_fst_lt (l : List String) :
    ∀ (n : Nat),
      List.Pairwise (fun a b : Nat × String => a.1 < b.1) (List.enumFrom n l) := by
  induction l with
  | nil => intro n; simp [List.enumFrom]
  | cons x xs ih =>
    intro n
    simp only [List.enumFrom]
    exact List.Pairwise.cons
      (fun p hp => Nat.lt_of_lt_of_le (Nat.lt_succ_self n) (enumFrom_fst_le xs (n + 1) p hp))
      (ih (n + 1))

/-- C8: the progress callback is invoked exactly once per video of the capped
enumeration list, in order, with arguments (url, success flag, total count,
one-based index), and the index argument is strictly increasing across
invocations. -/
theorem channel_callback_per_video (env : ChannelEnv) (channelUrl : String)
    (maxVideos : Nat) :
    (downloadChannelVideos env channelUrl maxVideos).2 =
      (cappedUrls env maxVideos).enum.map
        (fun e => (e.2, stepSuccess (env.outcome e.1),
                   (cappedUrls env maxVideos).length, e.1 + 1)) ∧
    List.Pairwise (fun a b : CbCall => a.2.2.2 < b.2.2.2)
      (downloadChannelVideos env channelUrl maxVideos).2 := by
  obtain ⟨scan, urls, outcome⟩ := env
  have hmain : (downloadChannelVideos ⟨scan, urls, outcome⟩ channelUrl maxVideos).2 =
      (cappedUrls ⟨scan, urls, outcome⟩ maxVideos).enum.map
        (fun e => (e.2, stepSuccess (outcome e.1),
                   (cappedUrls ⟨scan, urls, outcome⟩ maxVideos).length, e.1 + 1)) := by
    cases scan with
    | none => simp [downloadChannelVideos, cappedUrls]
    | some p =>
      by_cases hu : urls = []
      · simp [downloadChannelVideos, cappedUrls, hu]
      · by_cases hlen : urls.length > maxVideos <;>
          · simp only [downloadChannelVideos, cappedUrls, hu, hlen, if_false,
              if_true, ite_false, ite_true]
            rw [channelLoop_calls]
            rfl
  refine ⟨hmain, ?_⟩
  rw [hmain, List.pairwise_map, List.enum]
  exact (enumFrom_pairwise_fst_lt _ 0).imp
    (by intro a b h; simpa using Nat.add_lt_add_right h 1)

/-! ### URL dispatch and process_url: SimpleDownloadPipeline.process_url
    (src/src/simple_pipeline.py lines 326-402) -/

/-- Character-list test: the first argument is an initial segment of the
second. -/
def listIsPreOf : List Char → List Char → Bool
  | [], _ => true
  | _ :: _, [] => false
  | a :: as, b :: bs => a == b && listIsPreOf as bs

/-- Character-list substring test (Python: pat in s). -/
def listContainsSub (pat : List Char) : List Char → Bool
  | [] => pat.isEmpty
  | c :: rest => listIsPreOf pat (c :: rest) || listContainsSub pat rest

/-- ASCII lower-casing of one character (url.lower() on URL text). -/
def charLower (c : Char) : Char :=
  if c.isUpper then Char.ofNat (c.toNat + 32) else c

/-- The characters of a string, lower-cased. -/
def lowerStr (s : String) : List Char := s.toList.map charLower

/-- Substring test used for the channel heuristic, on the lower-cased URL. -/
def strContainsSub (s pat : String) : Bool :=
  listContainsSub pat.toList (lowerStr s)

/-- The channel/playlist URL patterns of lines 349-351 (and app.py 166-168,
204-206). -/
def channelPatterns : List String :=
  ["/channel/", "/c/", "/user/", "/@", "/playlist?"]

/-- is_channel: case-insensitive substring match of any channel pattern. -/
def isChannelUrl (url : String) : Bool :=
  channelPatterns.any (fun p => strContainsSub url p)

/-- The result dictionary returned by process_url.  rtype models the
dictionary key named type; video carries the merged single-video fields of
lines 359-373. -/
structure PipelineResult where
  success : Bool
  errMsg : Option String
  rtype : String
  downloadedCount : Nat
  failedCount : Nat
  totalVideos : Nat
  downloadedVideos : List VideoResult
  failedVideos : List VideoResult
  video : Option VideoResult
deriving Repr, DecidableEq

/-- Oracle environment for one process_url call. -/
structure PipelineEnv where
  /-- create_session (directory creation, lines 58-74) completing or raising. -/
  sessionOk : Except String Unit
  /-- the session name create_session would pick. -/
  sessionName : String
  /-- an exception raised inside the dispatched processor call and escaping
  it (the processors as embedded below catch their own exceptions; the
  enclosing try of process_url lines 344-402 would still catch anything
  that did escape, which this oracle injects at the call position). -/
  processorOk : Except String Unit
  /-- writing download_results.json (lines 384-386) completing or raising. -/
  resultsWriteOk : Except String Unit
  videoEnv : VideoEnv
  channelEnv : ChannelEnv

/-- The body of the try-block of process_url (lines 344-392), as a
computation that can raise. -/
def processUrlBlock (penv : PipelineEnv) (url : String) (maxVideos : Nat) :
    Except String PipelineResult := do
  let _ ← penv.sessionOk
  let _ ← penv.processorOk
  let result : PipelineResult ←
    if isChannelUrl url then
      let cr := (downloadChannelVideos penv.channelEnv url maxVideos).1
      pure { success := cr.success, errMsg := cr.errMsg, rtype := "channel"
             downloadedCount := cr.downloadedCount
             failedCount := cr.failedCount, totalVideos := cr.totalVideos
             downloadedVideos := cr.downloadedVideos
             failedVideos := cr.failedVideos, video := none }
    else
      let vr := (downloadSingleVideo penv.videoEnv url penv.sessionName true).1
      if vr.success then
        pure { success := true, errMsg := none, rtype := "video"
               downloadedCount := 1, failedCount := 0, totalVideos := 1
               downloadedVideos := [], failedVideos := [], video := some vr }
      else
        pure { success := false, errMsg := vr.errMsg, rtype := "video"
               downloadedCount := 0, failedCount := 1, totalVideos := 1
               downloadedVideos := [], failedVideos := [], video := some vr }
  let _ ← penv.resultsWriteOk
  pure result

/-- The catch-all failure dictionary of process_url (lines 394-402). -/
def unknownErrorResult (e : String) : PipelineResult :=
  { success := false, errMsg := some e, rtype := "unknown"
    downloadedCount := 0, failedCount := 0, totalVideos := 0
    downloadedVideos := [], failedVideos := [], video := none }

/-- process_url (lines 326-402): a total function — every exception raised
inside the try-block is converted into the catch-all failure dictionary. -/
def processUrl (penv : PipelineEnv) (url : String) (maxVideos : Nat) :
    PipelineResult :=
  match processUrlBlock penv url maxVideos with
  | Except.ok r => r
  | Except.error e => unknownErrorResult e

/-- C10: whenever the body of process_url raises (session creation, the
dispatched processor, or the results write), process_url returns a
dictionary with success=false, the exception message as error,
type unknown, and both counts zero — it never propagates the exception. -/
theorem process_url_catches_all (penv : PipelineEnv) (url : String)
    (maxVideos : Nat) (e : String)
    (h : processUrlBlock penv url maxVideos = Except.error e) :
    processUrl penv url maxVideos = unknownErrorResult e ∧
    (processUrl penv url maxVideos).success = false ∧
    (processUrl penv url maxVideos).errMsg = some e ∧
    (processUrl penv url maxVideos).rtype = "unknown" ∧
    (processUrl penv url maxVideos).downloadedCount = 0 ∧
    (processUrl penv url maxVideos).failedCount = 0 := by
  simp [processUrl, h, unknownErrorResult]

/-- A benign single-video oracle environment used by the app-level witnesses. -/
def benignVideoEnv : VideoEnv :=
  { info := Except.ok { id := "vid1", title := "T", duration := 5 }
    downloadPath := Except.ok "downloads/a.flac"
    metadataWriteOk := true, gcpAvailable := false
    audioUpload := { success := false, publicUrl := "", errMsg := "" }
    metaUpload := { success := false, publicUrl := "", errMsg := "" }
    audioExists := true, metaExists := true
    audioUnlinkOk := true, metaUnlinkOk := true, fileSize := 3 }

/-- Witness environment for C10: session creation raises. -/
def c10WitnessEnv : PipelineEnv :=
  { sessionOk := Except.error "disk full"
    sessionName := "s", processorOk := Except.ok ()
    resultsWriteOk := Except.ok (), videoEnv := benignVideoEnv
    channelEnv := { scanResult := none, videoUrls := [],
                    outcome := fun _ => StepOutcome.raised "unused" } }

theorem process_url_catches_all_witness :
    processUrl c10WitnessEnv "https://youtu.be/x" 2500 =
      unknownErrorResult "disk full" ∧
    (processUrl c10WitnessEnv "https://youtu.be/x" 2500).success = false ∧
    (processUrl c10WitnessEnv "https://youtu.be/x" 2500).errMsg =
      some "disk full" ∧
    (processUrl c10WitnessEnv "https://youtu.be/x" 2500).rtype = "unknown" ∧
    (processUrl c10WitnessEnv "https://youtu.be/x" 2500).downloadedCount = 0 ∧
    (processUrl c10WitnessEnv "https://youtu.be/x" 2500).failedCount = 0 :=
  process_url_catches_all c10WitnessEnv "https://youtu.be/x" 2500 "disk full" rfl

/-! ### Job records and the background runners (src/app.py)

JobStatus (app.py lines 38-68) holds status, progress, message, results and
error.  Two background runners mutate it: process_youtube_url_background
(lines 70-147, behind the /process route) and process_channel_background
(lines 198-315, behind the /process_channel route). -/

/-- One JobStatus.update call: the three fields it writes (app.py 50-54). -/
structure JobUpdate where
  status : String
  progress : Nat
  message : String
deriving Repr, DecidableEq

/-- The final, quiescent value of the job record fields relevant to the
terminal-state invariants, after a background runner returned. -/
structure JobFinal where
  status : String
  progress : Nat
  results : Option PipelineResult
  errField : Option String
deriving Repr

/-- Terminal states of a job record. -/
def terminalStatus (s : String) : Prop := s = "completed" ∨ s = "failed"

/-- Final record produced by process_youtube_url_background (app.py 70-147):
on any value returned by the pipeline — line 143 calls job.complete(result)
without checking result success — the record ends completed with results
set; on an exception, job.fail sets failed/0 and the error string. -/
def ytRunnerFinal (outcome : Except String PipelineResult) : JobFinal :=
  match outcome with
  | Except.ok r => { status := "completed", progress := 100
                     results := some r, errField := none }
  | Except.error e => { status := "failed", progress := 0
                        results := none, errField := some e }

/-- Final record produced by process_channel_background (app.py 198-315).
initOutcome models an exception raised before or around the pipeline call
(for example pipeline construction, lines 217-221), caught at line 306.
When the pipeline returns with success=false, the whole final-status block
(lines 257-301) is skipped — the failed-update branch at lines 298-299 sits
inside the result-success check of line 257 and is dead code — so the record
keeps the initial downloading/10 update and no result or error is attached. -/
def channelRunnerFinal (initOutcome : Except String Unit)
    (r : PipelineResult) : JobFinal :=
  match initOutcome with
  | Except.error e => { status := "failed", progress := 0
                        results := none, errField := some e }
  | Except.ok _ =>
    if r.success then
      { status := "completed", progress := 100
        results := some r, errField := none }
    else
      { status := "downloading", progress := 10
        results := none, errField := none }

/-- Pipeline environment of the C2 scenario: the channel enumerator scans
successfully but yields zero videos; nothing else fails. -/
def c2Env : PipelineEnv :=
  { sessionOk := Except.ok (), sessionName := "s"
    processorOk := Except.ok (), resultsWriteOk := Except.ok ()
    videoEnv := benignVideoEnv
    channelEnv := { scanResult := some "scans/list.csv", videoUrls := []
                    outcome := fun _ => StepOutcome.raised "unused" } }

/-- C2 (code evaluation at the failing input): a channel URL enumerating to
zero videos makes the pipeline return success=false with the no-videos error
and zero downloads, yet the job record ends at downloading/10 — it never
reaches the Failed state the spec requires, because the failed-transition
branch of process_channel_background is unreachable. -/
theorem channel_zero_videos_job_stuck :
    isChannelUrl "https://www.youtube.com/channel/empty" = true ∧
    (processUrl c2Env "https://www.youtube.com/channel/empty" 2500).success
      = false ∧
    (processUrl c2Env "https://www.youtube.com/channel/empty" 2500).errMsg
      = some "No videos found in channel" ∧
    (processUrl c2Env
      "https://www.youtube.com/channel/empty" 2500).downloadedCount = 0 ∧
    (channelRunnerFinal (Except.ok ())
      (processUrl c2Env "https://www.youtube.com/channel/empty" 2500)).status
      = "downloading" ∧
    (channelRunnerFinal (Except.ok ())
      (processUrl c2Env "https://www.youtube.com/channel/empty" 2500)).status
      ≠ "failed" ∧
    (channelRunnerFinal (Except.ok ())
      (processUrl c2Env "https://www.youtube.com/channel/empty" 2500)).status
      ≠ "completed" := by
  decide

/-- C6: once a runner leaves its job record in a terminal state, exactly one
of the result payload and the error string is populated — never both and
never neither.  (The non-terminal stuck record of the dead-code path carries
neither, but it is not terminal.) -/
theorem terminal_result_error_exclusive
    (outcome : Except String PipelineResult)
    (initOutcome : Except String Unit) (r : PipelineResult)
    (h1 : terminalStatus (ytRunnerFinal outcome).status)
    (h2 : terminalStatus (channelRunnerFinal initOutcome r).status) :
    (((ytRunnerFinal outcome).results.isSome = true ∧
      (ytRunnerFinal outcome).errField = none) ∨
     ((ytRunnerFinal outcome).results = none ∧
      (ytRunnerFinal outcome).errField.isSome = true)) ∧
    (((channelRunnerFinal initOutcome r).results.isSome = true ∧
      (channelRunnerFinal initOutcome r).errField = none) ∨
     ((channelRunnerFinal initOutcome r).results = none ∧
      (channelRunnerFinal initOutcome r).errField.isSome = true)) := by
  constructor
  · cases outcome <;> simp [ytRunnerFinal]
  · cases initOutcome with
    | error e => simp [channelRunnerFinal]
    | ok u =>
      cases hr : r.success
      · exfalso
        simp [channelRunnerFinal, hr, terminalStatus] at h2
      · simp [channelRunnerFinal, hr]

theorem terminal_result_error_exclusive_witness :
    terminalStatus (ytRunnerFinal (Except.error "boom")).status ∧
    terminalStatus (channelRunnerFinal (Except.error "down")
      (unknownErrorResult "x")).status ∧
    ((((ytRunnerFinal (Except.error "boom")).results.isSome = true ∧
      (ytRunnerFinal (Except.error "boom")).errField = none) ∨
     ((ytRunnerFinal (Except.error "boom")).results = none ∧
      (ytRunnerFinal (Except.error "boom")).errField.isSome = true)) ∧
    (((channelRunnerFinal (Except.error "down")
        (unknownErrorResult "x")).results.isSome = true ∧
      (channelRunnerFinal (Except.error "down")
        (unknownErrorResult "x")).errField = none) ∨
     ((channelRunnerFinal (Except.error "down")
        (unknownErrorResult "x")).results = none ∧
      (channelRunnerFinal (Except.error "down")
        (unknownErrorResult "x")).errField.isSome = true))) :=
  ⟨Or.inr rfl, Or.inr rfl,
   terminal_result_error_exclusive (Except.error "boom") (Except.error "down")
     (unknownErrorResult "x") (Or.inr rfl) (Or.inr rfl)⟩

/-! ### Progress update sequences of the two background runners

process_youtube_url_background (app.py 70-147) issues:
initial update (downloading, 10, line 83); per video the callback update
(processing, min(90, floor(i/total*80)+10), lines 90-102); then
(finalizing, 95, line 112); one of the completed updates of lines 135-141
(all with progress 100); and job.complete (completed, 100, lines 56-61).

process_channel_background (app.py 198-315) issues: initial update
(downloading, 10, lines 209-214); per video the callback update
(processing, min(90, floor(i/total*90)), lines 226-247) — note the missing
+10 offset compared to the other runner; (finalizing, 95, lines 261-263)
when the object store is available; and a completed update with progress 100
(lines 290-297).  job.fail and the failed updates (lines 63-68, 299, 312)
set (failed, 0).  Python computes the percentages through float division;
the embedding uses the exact floor, which agrees on all the concrete
instances used here. -/

/-- Callback percentage of process_channel_background (app.py line 244). -/
def channelCallbackProgress (total i : Nat) : Nat := min 90 (i * 90 / total)

/-- Callback percentage of process_youtube_url_background (app.py line 91). -/
def ytCallbackProgress (total i : Nat) : Nat := min 90 (i * 80 / total + 10)

/-- A failure transition: job.fail / update(failed, 0, ...). -/
def failUpdate (e : String) : JobUpdate :=
  { status := "failed", progress := 0, message := "Erro: " ++ e }

/-- The non-terminal updates of a channel-URL job on the /process_channel
route, for a capped enumeration of the given length. -/
def channelActiveUpdates (total : Nat) (gcpAvail : Bool) : List JobUpdate :=
  { status := "downloading", progress := 10
    message := "Iniciando processamento do canal..." } ::
  ((List.range total).map (fun k =>
      { status := "processing"
        progress := channelCallbackProgress total (k + 1)
        message := "Processando canal..." }) ++
   (if gcpAvail then
      [{ status := "finalizing", progress := 95
         message := "Finalizando uploads para GCP..." }]
    else []))

/-- Full update sequence of a successful channel-URL job on the
/process_channel route. -/
def channelJobUpdates (total : Nat) (gcpAvail : Bool) : List JobUpdate :=
  channelActiveUpdates total gcpAvail ++
  [{ status := "completed", progress := 100, message := "Canal processado" }]

/-- Update sequence of a /process_channel job whose worker raises after k
updates (caught at app.py lines 306-313). -/
def channelJobUpdatesFail (total : Nat) (gcpAvail : Bool) (k : Nat)
    (e : String) : List JobUpdate :=
  (channelActiveUpdates total gcpAvail).take k ++ [failUpdate e]

/-- The non-terminal updates of a job on the /process route. -/
def ytActiveUpdates (total : Nat) : List JobUpdate :=
  { status := "downloading", progress := 10
    message := "Iniciando download..." } ::
  ((List.range total).map (fun k =>
      { status := "processing"
        progress := ytCallbackProgress total (k + 1)
        message := "Video processado" }) ++
   [{ status := "finalizing", progress := 95
      message := "Finalizando processamento..." }])

/-- Full update sequence of a successful job on the /process route: the
explicit completed update of lines 135-141 followed by job.complete. -/
def ytJobUpdates (total : Nat) : List JobUpdate :=
  ytActiveUpdates total ++
  [{ status := "completed", progress := 100
     message := "Processamento concluido" },
   { status := "completed", progress := 100
     message := "Processamento concluido com sucesso!" }]

/-- Update sequence of a /process job whose worker raises after k updates
(caught at app.py lines 145-147, job.fail). -/
def ytJobUpdatesFail (total k : Nat) (e : String) : List JobUpdate :=
  (ytActiveUpdates total).take k ++ [failUpdate e]

/-- An update that leaves the record in a non-terminal state. -/
def activeUpdate (u : JobUpdate) : Bool :=
  u.status != "completed" && u.status != "failed"

/-- The progress values of a job never decrease while the record is in a
non-terminal state. -/
def progressMonotone (us : List JobUpdate) : Prop :=
  List.Chain' (· ≤ ·) ((us.takeWhile activeUpdate).map (fun u => u.progress))

/-- Executable nondecreasing test for a list of progress values. -/
def chainLeB : List Nat → Bool
  | [] => true
  | [_] => true
  | a :: b :: t => decide (a ≤ b) && chainLeB (b :: t)

/-- chainLeB decides Chain' of the order on Nat. -/
theorem chainLeB_iff : ∀ l : List Nat,
    chainLeB l = true ↔ List.Chain' (· ≤ ·) l
  | [] => by simp [chainLeB]
  | [a] => by simp [chainLeB]
  | a :: b :: t => by
    rw [List.chain'_cons, ← chainLeB_iff (b :: t)]
    simp [chainLeB]

/-- C4 counterexample: for a channel job over 10 videos the first per-video
update drops progress from 10 to floor(1/10*90) = 9 while the record is
non-terminal, so progress is not monotonically non-decreasing. -/
theorem channel_progress_decreases :
    ¬ progressMonotone (channelJobUpdates 10 true) := by
  unfold progressMonotone
  rw [← chainLeB_iff]
  decide

/-- A full nondecreasing progress list stays nondecreasing on the
non-terminal filtered view. -/
theorem progressMonotone_of_full (us : List JobUpdate)
    (h : List.Chain' (· ≤ ·) (us.map (fun u => u.progress))) :
    progressMonotone us :=
  h.sublist (List.Sublist.map _ (List.takeWhile_sublist _))

/-- Mapping a pointwise-nondecreasing function over range is a
nondecreasing list. -/
theorem chain'_map_range_of_mono (f : Nat → Nat)
    (hf : ∀ k, f k ≤ f (k + 1)) (n : Nat) :
    List.Chain' (· ≤ ·) ((List.range n).map f) := by
  rw [List.chain'_map f]
  cases n with
  | zero => simp
  | succ m =>
    rw [List.chain'_range_succ]
    intro k _
    exact hf k

/-- Generic gluing: a list whose elements all lie between lo and mid,
arranged nondecreasingly, stays nondecreasing when a tail of values at
least mid and itself nondecreasing is appended after it, provided the head
of everything is at most every element. -/
theorem chain'_le_append (l₁ l₂ : List Nat)
    (h₁ : List.Chain' (· ≤ ·) l₁) (h₂ : List.Chain' (· ≤ ·) l₂)
    (hlink : ∀ x ∈ l₁, ∀ y ∈ l₂, x ≤ y) :
    List.Chain' (· ≤ ·) (l₁ ++ l₂) := by
  rw [List.chain'_append]
  exact ⟨h₁, h₂, fun x hx y hy =>
    hlink x (List.mem_of_mem_getLast? hx) y (List.mem_of_mem_head? hy)⟩

/-- The channel-runner per-video percentage is nondecreasing in the index. -/
theorem channelCallbackProgress_mono (total k : Nat) :
    channelCallbackProgress total (k + 1) ≤ channelCallbackProgress total (k + 2) :=
  min_le_min (Nat.le_refl 90)
    (Nat.div_le_div_right (Nat.mul_le_mul_right 90 (by omega)))

/-- The video-runner per-video percentage is nondecreasing in the index. -/
theorem ytCallbackProgress_mono (total k : Nat) :
    ytCallbackProgress total (k + 1) ≤ ytCallbackProgress total (k + 2) :=
  min_le_min (Nat.le_refl 90)
    (Nat.add_le_add_right
      (Nat.div_le_div_right (Nat.mul_le_mul_right 80 (by omega))) 10)

/-- Progress values of the /process success sequence form a nondecreasing
list outright. -/
theorem ytJobUpdates_full_chain (total : Nat) :
    List.Chain' (· ≤ ·) ((ytJobUpdates total).map (fun u => u.progress)) := by
  have hmp : List.Chain' (· ≤ ·)
      ((List.range total).map (fun k => ytCallbackProgress total (k + 1))) :=
    chain'_map_range_of_mono _ (fun k => ytCallbackProgress_mono total k) total
  have hub : ∀ x ∈ (List.range total).map
      (fun k => ytCallbackProgress total (k + 1)), x ≤ 90 := by
    intro x hx
    obtain ⟨k, _, rfl⟩ := List.mem_map.1 hx
    exact Nat.min_le_left _ _
  have hlb : ∀ x ∈ (List.range total).map
      (fun k => ytCallbackProgress total (k + 1)), 10 ≤ x := by
    intro x hx
    obtain ⟨k, _, rfl⟩ := List.mem_map.1 hx
    exact le_min (by omega) (Nat.le_add_left 10 _)
  have hform : (ytJobUpdates total).map (fun u => u.progress) =
      10 :: ((List.range total).map (fun k => ytCallbackProgress total (k + 1))
             ++ [95, 100, 100]) := by
    simp [ytJobUpdates, ytActiveUpdates, Function.comp]
  rw [hform, List.chain'_cons']
  constructor
  · intro y hy
    have hmem := List.mem_of_mem_head? hy
    rcases List.mem_append.1 hmem with h | h
    · exact hlb y h
    · simp only [List.mem_cons, List.not_mem_nil, or_false] at h
      rcases h with rfl | rfl | rfl <;> omega
  · apply chain'_le_append
    · exact hmp
    · exact (chainLeB_iff _).1 (by decide)
    · intro x hx y hy
      have h90 := hub x hx
      simp only [List.mem_cons, List.not_mem_nil, or_false] at hy
      rcases hy with rfl | rfl | rfl <;> omega

/-- For capped totals between 1 and 9 the channel-runner progress values are
nondecreasing outright (the nine cases are evaluated). -/
theorem channelJobUpdates_full_chain (total : Nat) (h1 : 1 ≤ total)
    (h9 : total ≤ 9) (gcp : Bool) :
    List.Chain' (· ≤ ·) ((channelJobUpdates total gcp).map (fun u => u.progress)) := by
  rw [← chainLeB_iff]
  interval_cases total <;> cases gcp <;> decide

/-- For capped totals of at least 10 the first per-video update of the
channel runner drops below the initial 10 percent. -/
theorem channel_progress_drop_of_ge_ten (total : Nat) (h10 : 10 ≤ total)
    (gcp : Bool) : ¬ progressMonotone (channelJobUpdates total gcp) := by
  obtain ⟨t, rfl⟩ : ∃ t, total = t + 1 := ⟨total - 1, by omega⟩
  intro hm
  unfold progressMonotone at hm
  have hshape : channelJobUpdates (t + 1) gcp =
      { status := "downloading", progress := 10
        message := "Iniciando processamento do canal..." } ::
      { status := "processing", progress := channelCallbackProgress (t + 1) 1
        message := "Processando canal..." } ::
      (((List.range t).map (fun k =>
          ({ status := "processing"
             progress := channelCallbackProgress (t + 1) (k + 1 + 1)
             message := "Processando canal..." } : JobUpdate)) ++
        (if gcp then
          [{ status := "finalizing", progress := 95
             message := "Finalizando uploads para GCP..." }]
         else [])) ++
       [{ status := "completed", progress := 100
          message := "Canal processado" }]) := by
    simp [channelJobUpdates, channelActiveUpdates, List.range_succ_eq_map,
      Function.comp]
  rw [hshape, List.takeWhile_cons_of_pos rfl, List.takeWhile_cons_of_pos rfl,
    List.map_cons, List.map_cons] at hm
  obtain ⟨hle, -⟩ := List.chain'_cons.1 hm
  have h10le : (10 : Nat) ≤ channelCallbackProgress (t + 1) 1 := hle
  have hsmall : channelCallbackProgress (t + 1) 1 ≤ 9 := by
    unfold channelCallbackProgress
    calc min 90 (1 * 90 / (t + 1)) ≤ 1 * 90 / (t + 1) := Nat.min_le_right _ _
    _ ≤ 90 / 10 := by
        rw [Nat.one_mul]
        exact Nat.div_le_div_left h10 (by omega)
    _ = 9 := rfl
  omega

/-- C4 amended: progress of a /process job never decreases while the record
is non-terminal for every total; progress of a /process_channel channel job
is monotone exactly when the capped total is at most 9 — for 10 or more
videos the first per-video update drops progress from 10 to
floor(90/total). -/
theorem progress_monotone_amended (total : Nat) (h1 : 1 ≤ total) (gcp : Bool) :
    progressMonotone (ytJobUpdates total) ∧
    (progressMonotone (channelJobUpdates total gcp) ↔ total ≤ 9) := by
  refine ⟨progressMonotone_of_full _ (ytJobUpdates_full_chain total), ?_, ?_⟩
  · intro hm
    by_contra h9
    exact channel_progress_drop_of_ge_ten total (by omega) gcp hm
  · intro h9
    exact progressMonotone_of_full _
      (channelJobUpdates_full_chain total h1 h9 gcp)

theorem progress_monotone_amended_witness :
    1 ≤ 5 ∧
    (progressMonotone (ytJobUpdates 5) ∧
     (progressMonotone (channelJobUpdates 5 true) ↔ 5 ≤ 9)) :=
  ⟨by omega, progress_monotone_amended 5 (by omega) true⟩

/-! ### Zero and one-hundred progress versus terminal states (C5) -/

/-- The progress/state bindings of the spec that do survive on the code:
Completed updates carry exactly 100, Failed updates carry exactly 0, and
100 appears only on Completed. -/
def statusProgressOk (u : JobUpdate) : Prop :=
  (u.status = "completed" → u.progress = 100) ∧
  (u.status = "failed" → u.progress = 0) ∧
  (u.progress = 100 → u.status = "completed")

/-- Elements of the channel-runner non-terminal updates are non-terminal
and never exceed 95 percent. -/
theorem channelActiveUpdates_elem (total : Nat) (gcp : Bool) (u : JobUpdate)
    (hu : u ∈ channelActiveUpdates total gcp) :
    activeUpdate u = true ∧ u.progress ≤ 95 := by
  rcases List.mem_cons.1 hu with rfl | hu'
  · exact ⟨rfl, by decide⟩
  rcases List.mem_append.1 hu' with hm | hf
  · obtain ⟨k, -, rfl⟩ := List.mem_map.1 hm
    exact ⟨rfl, le_trans (Nat.min_le_left _ _) (by omega)⟩
  · cases gcp with
    | true =>
      simp only [if_true, List.mem_singleton] at hf
      subst hf
      exact ⟨rfl, by decide⟩
    | false => simp at hf

/-- Elements of the video-runner non-terminal updates are non-terminal and
never exceed 95 percent. -/
theorem ytActiveUpdates_elem (total : Nat) (u : JobUpdate)
    (hu : u ∈ ytActiveUpdates total) :
    activeUpdate u = true ∧ u.progress ≤ 95 := by
  rcases List.mem_cons.1 hu with rfl | hu'
  · exact ⟨rfl, by decide⟩
  rcases List.mem_append.1 hu' with hm | hf
  · obtain ⟨k, -, rfl⟩ := List.mem_map.1 hm
    exact ⟨rfl, le_trans (Nat.min_le_left _ _) (by omega)⟩
  · simp only [List.mem_singleton] at hf
    subst hf
    exact ⟨rfl, by decide⟩

/-- Non-terminal updates below 100 percent satisfy the surviving bindings. -/
theorem statusProgressOk_of_active (u : JobUpdate)
    (h : activeUpdate u = true) (hp : u.progress ≤ 95) :
    statusProgressOk u := by
  simp only [activeUpdate, Bool.and_eq_true, bne_iff_ne] at h
  exact ⟨fun hc => absurd hc h.1, fun hf => absurd hf h.2,
         fun h100 => by omega⟩

/-- C5 counterexample: a channel job over 91 videos sets progress 0 on its
first per-video update while the state is processing, not failed — progress
0 is not reserved for the Failed transition. -/
theorem progress_zero_while_processing :
    ({ status := "processing", progress := 0
       message := "Processando canal..." } : JobUpdate)
      ∈ channelJobUpdates 91 true ∧
    ("processing" : String) ≠ "failed" ∧
    ("processing" : String) ≠ "completed" := by
  refine ⟨?_, by decide, by decide⟩
  decide

/-- C5 amended: across all update sequences of both runners, every Failed
transition sets progress to exactly 0, every Completed update carries
exactly 100, and progress 100 occurs only on Completed; progress 0, however,
can also be set by a non-terminal update (see the counterexample). -/
theorem status_progress_amended (total k : Nat) (gcp : Bool) (e : String)
    (u : JobUpdate)
    (hu : u ∈ ytJobUpdates total ∨ u ∈ channelJobUpdates total gcp ∨
          u ∈ ytJobUpdatesFail total k e ∨
          u ∈ channelJobUpdatesFail total gcp k e) :
    statusProgressOk u := by
  have hcompleted : ∀ m : String, statusProgressOk
      { status := "completed", progress := 100, message := m } :=
    fun m => ⟨fun _ => rfl,
      fun h => absurd h (by decide : ¬ ("completed" : String) = "failed"),
      fun _ => rfl⟩
  have hfail : statusProgressOk (failUpdate e) :=
    ⟨fun h => absurd h (by decide : ¬ ("failed" : String) = "completed"),
     fun _ => rfl,
     fun h => absurd h (by decide : ¬ (0 : Nat) = 100)⟩
  rcases hu with h | h | h | h
  · rcases List.mem_append.1 h with ha | hc
    · obtain ⟨hact, hle⟩ := ytActiveUpdates_elem total u ha
      exact statusProgressOk_of_active u hact hle
    · simp only [List.mem_cons, List.not_mem_nil, or_false] at hc
      rcases hc with rfl | rfl <;> exact hcompleted _
  · rcases List.mem_append.1 h with ha | hc
    · obtain ⟨hact, hle⟩ := channelActiveUpdates_elem total gcp u ha
      exact statusProgressOk_of_active u hact hle
    · simp only [List.mem_singleton] at hc
      subst hc
      exact hcompleted _
  · rcases List.mem_append.1 h with ha | hf
    · obtain ⟨hact, hle⟩ :=
        ytActiveUpdates_elem total u (List.mem_of_mem_take ha)
      exact statusProgressOk_of_active u hact hle
    · simp only [List.mem_singleton] at hf
      subst hf
      exact hfail
  · rcases List.mem_append.1 h with ha | hf
    · obtain ⟨hact, hle⟩ :=
        channelActiveUpdates_elem total gcp u (List.mem_of_mem_take ha)
      exact statusProgressOk_of_active u hact hle
    · simp only [List.mem_singleton] at hf
      subst hf
      exact hfail

theorem status_progress_amended_witness :
    (failUpdate "x" ∈ ytJobUpdates 1 ∨
     failUpdate "x" ∈ channelJobUpdates 1 true ∨
     failUpdate "x" ∈ ytJobUpdatesFail 1 0 "x" ∨
     failUpdate "x" ∈ channelJobUpdatesFail 1 true 0 "x") ∧
    statusProgressOk (failUpdate "x") :=
  ⟨Or.inr (Or.inr (Or.inl (by decide))),
   status_progress_amended 1 0 true "x" (failUpdate "x")
     (Or.inr (Or.inr (Or.inl (by decide))))⟩

/-! ### Atomicity of record updates under the registry lock (C7)

JobStatus.update (app.py 50-54) performs three separate field assignments.
Whether they appear atomic to a status poller — who reads the record under
job_lock (app.py 363-384) — depends on the call site holding job_lock:
every update site inside process_channel_background is wrapped in
`with job_lock` (app.py 209-214, 230-247, 261-263, 280-300, 310-313), while
process_youtube_url_background mutates the record with no lock at all
(app.py 72, 83, 102, 112, 135-143, 147).  The writer is modelled as a
sequence of atomic operations; a poller may take its locked snapshot at any
point where the writer does not hold the lock. -/

/-- One atomic action of a writer thread. -/
inductive WriteOp where
  | acquire
  | release
  | setStatus (s : String)
  | setProgress (p : Nat)
  | setMessage (m : String)
deriving Repr

/-- The three JobStatus fields written by update. -/
structure RecFields where
  status : String
  progress : Nat
  message : String
deriving Repr, DecidableEq

/-- Effect of one writer action on the record fields. -/
def applyOp (r : RecFields) : WriteOp → RecFields
  | WriteOp.acquire => r
  | WriteOp.release => r
  | WriteOp.setStatus s => { r with status := s }
  | WriteOp.setProgress p => { r with progress := p }
  | WriteOp.setMessage m => { r with message := m }

/-- Whether the writer holds the lock after one action. -/
def holdsAfter (held : Bool) : WriteOp → Bool
  | WriteOp.acquire => true
  | WriteOp.release => false
  | _ => held

/-- All record snapshots a locked poller can observe while the writer runs
the given action sequence: the record value at every point where the writer
does not hold the lock (including before the first and after the last
action). -/
def pollPoints (r : RecFields) (held : Bool) : List WriteOp → List RecFields
  | [] => if held then [] else [r]
  | op :: rest =>
    (if held then [] else [r]) ++
    pollPoints (applyOp r op) (holdsAfter held op) rest

/-- The writer actions of one JobStatus.update call (two field orders and
the lock discipline of the call site): status, then progress, then message,
wrapped in acquire/release exactly when the call site sits inside
`with job_lock`. -/
def updateOps (underLock : Bool) (u : JobUpdate) : List WriteOp :=
  (if underLock then [WriteOp.acquire] else []) ++
  [WriteOp.setStatus u.status, WriteOp.setProgress u.progress,
   WriteOp.setMessage u.message] ++
  (if underLock then [WriteOp.release] else [])

/-- Lock discipline of the update sites of process_youtube_url_background:
none of its JobStatus mutations happens inside `with job_lock`
(app.py lines 70-147). -/
def ytRunnerUpdatesUnderLock : Bool := false

/-- Lock discipline of the update sites of process_channel_background: all
of its JobStatus mutations happen inside `with job_lock`
(app.py lines 209-214, 230-247, 261-263, 280-300, 310-313). -/
def channelRunnerUpdatesUnderLock : Bool := true

/-- The freshly created record (app.py 38-48). -/
def initialRecord : RecFields :=
  { status := "waiting", progress := 0
    message := "Iniciando processamento..." }

/-- The first update of process_youtube_url_background (app.py line 83). -/
def firstYtUpdate : JobUpdate :=
  { status := "downloading", progress := 10
    message := "Iniciando download..." }

/-- C7 counterexample: the video runner updates the record without the
registry lock, so a poller can observe the state already changed to
downloading while the message is still the stale initial one — a partial
update, contradicting the claim that every transition is applied atomically
under the lock. -/
theorem unlocked_update_partial_observation :
    ytRunnerUpdatesUnderLock = false ∧
    ({ status := "downloading", progress := 0
       message := "Iniciando processamento..." } : RecFields)
      ∈ pollPoints initialRecord false
          (updateOps ytRunnerUpdatesUnderLock firstYtUpdate) ∧
    ({ status := "downloading", progress := 0
       message := "Iniciando processamento..." } : RecFields).status
      = firstYtUpdate.status ∧
    ({ status := "downloading", progress := 0
       message := "Iniciando processamento..." } : RecFields).message
      = initialRecord.message ∧
    initialRecord.message ≠ firstYtUpdate.message := by
  refine ⟨rfl, ?_, rfl, rfl, by decide⟩
  decide

/-- C7 amended: updates issued by process_channel_background run under the
registry lock and a concurrently polling reader observes exactly the
pre-update or the post-update record, never a partial one; updates issued by
process_youtube_url_background run without the lock, and the reader can
additionally observe the two intermediate states in which the state (and
then the progress) is new while the message is stale. -/
theorem update_atomicity_amended (r : RecFields) (u : JobUpdate) :
    channelRunnerUpdatesUnderLock = true ∧
    pollPoints r false (updateOps channelRunnerUpdatesUnderLock u) =
      [r, { status := u.status, progress := u.progress
            message := u.message }] ∧
    ytRunnerUpdatesUnderLock = false ∧
    pollPoints r false (updateOps ytRunnerUpdatesUnderLock u) =
      [r,
       { r with status := u.status },
       { r with status := u.status, progress := u.progress },
       { status := u.status, progress := u.progress
         message := u.message }] :=
  ⟨rfl, rfl, rfl, rfl⟩

/-! ### Local path fields after cleanup (C9) -/

/-- Environment of a fully successful single-video run: both uploads succeed
and both local deletions succeed. -/
def c9Env : VideoEnv :=
  { info := Except.ok { id := "vid1", title := "T", duration := 5 }
    downloadPath := Except.ok "downloads/a.flac"
    metadataWriteOk := true, gcpAvailable := true
    audioUpload := { success := true, publicUrl := "gs://b/a", errMsg := "" }
    metaUpload := { success := true, publicUrl := "gs://b/m", errMsg := "" }
    audioExists := true, metaExists := true
    audioUnlinkOk := true, metaUnlinkOk := true, fileSize := 3 }

/-- C9 counterexample: after a successful cleanup (local_files_cleaned set
true and both files actually deleted) the result dictionary still carries
the original local audio and metadata paths — the code never clears the
audio_path and metadata_path entries. -/
theorem local_paths_not_cleared :
    (downloadSingleVideo c9Env "u" "s" true).1.localFilesCleaned = true ∧
    (downloadSingleVideo c9Env "u" "s" true).2 =
      ["downloads/a.flac", "metadata/vid1_metadata.json"] ∧
    (downloadSingleVideo c9Env "u" "s" true).1.audioPath =
      "downloads/a.flac" ∧
    (downloadSingleVideo c9Env "u" "s" true).1.metadataPath =
      "metadata/vid1_metadata.json" := by
  decide

/-- C9 amended: the local path fields of a successful Video Result always
keep the values set when the files were produced — the downloaded audio path
and the sidecar path — whether or not local cleanup occurred; they are not
cleared on cleanup. -/
theorem local_paths_preserved (env : VideoEnv) (url sess : String)
    (i : VideoInfo) (p : String) (immediateUpload : Bool)
    (hi : env.info = Except.ok i) (hd : env.downloadPath = Except.ok p)
    (hm : env.metadataWriteOk = true) :
    (downloadSingleVideo env url sess immediateUpload).1.audioPath = p ∧
    (downloadSingleVideo env url sess immediateUpload).1.metadataPath =
      metadataFilePath i.id := by
  obtain ⟨info, dl, mw, gcp, au, mu, ae, me_, auk, muk, fs⟩ := env
  simp only at hi hd hm
  subst hi hd hm
  cases immediateUpload <;> cases gcp <;>
    cases hau : au.success <;> cases hmu : mu.success <;>
    cases ae <;> cases me_ <;> cases auk <;> cases muk <;>
    simp [downloadSingleVideo, hau, hmu]

theorem local_paths_preserved_witness :
    (downloadSingleVideo c9Env "u" "s" true).1.audioPath =
      "downloads/a.flac" ∧
    (downloadSingleVideo c9Env "u" "s" true).1.metadataPath =
      metadataFilePath "vid1" :=
  local_paths_preserved c9Env "u" "s"
    { id := "vid1", title := "T", duration := 5 } "downloads/a.flac" true
    rfl rfl rfl

end Katube
